import Mathlib

/-!
Verification of the calendar feature of the moodle_chat frontend
(`frontend/src/Calendar.tsx`): the dual-source event store (local
events persisted to localStorage plus an in-memory mirror of Google
Calendar events), the OAuth session state, and the reminder scan
engine.  All definitions are shallow embeddings of the TypeScript
source: React `useState` values and the relevant localStorage keys are
collected into an explicit state record, network responses are passed
in as explicit oracle values, and asynchronous calls are modelled by
sequential state passing.
-/

namespace MoodleChat

/-- Event record from `Calendar.tsx`: `{ id, date, text, source? }`
where `source` is `'local' | 'google'` and is absent on events created
by the frontend itself. -/
structure CalendarEvent where
  id : String
  date : String
  text : String
  source : Option String
deriving DecidableEq, Repr, BEq

/-- The `GoogleUser` record: `{ email, name, picture, accessToken? }`. -/
structure GoogleUser where
  email : String
  name : String
  picture : String
  accessToken : Option String
deriving DecidableEq, Repr, BEq

/-- Parsed value of the `reminder_settings` localStorage key.  The two
fields are read with `settings.reminder_days_tasks || 1` and
`settings.reminder_days_exams || 7`, so each may be absent. -/
structure StoredSettings where
  reminder_days_tasks : Option Int
  reminder_days_exams : Option Int
deriving DecidableEq, Repr, BEq

/-- The localStorage keys used by `Calendar.tsx`, with parsed values:
`calendar_events_v1`, `google_user_v1`, `google_access_token_v1`,
`google_refresh_token_v1`, `reminder_settings`, `shown_reminders`.
`none` models an absent key. -/
structure KV where
  calendar_events : Option (List CalendarEvent)
  google_user : Option GoogleUser
  google_access_token : Option String
  google_refresh_token : Option String
  reminder_settings : Option StoredSettings
  shown_reminders : Option (List String)
deriving DecidableEq, Repr, BEq

/-- Combined component state: the React state variables of
`CalendarContent` (`events`, `googleEvents`, `user`, `accessToken`,
`refreshToken`) together with the localStorage contents. -/
structure AppState where
  events : List CalendarEvent
  googleEvents : List CalendarEvent
  user : Option GoogleUser
  accessToken : Option String
  refreshToken : Option String
  kv : KV
deriving DecidableEq, Repr, BEq

/-- One network request issued by the component; used to trace which
backend endpoints a code path actually calls. -/
inductive NetCall where
  | createCall
  | refreshCall
  | fetchCall
deriving DecidableEq, Repr, BEq

/-- Response oracle for `POST /api/google/calendar/create`:
`httpError` covers a thrown fetch / non-ok status (the catch branch),
`payload ok ev` a JSON body `{success: ok, event: ev}`. -/
inductive CreateResp where
  | httpError
  | payload (success : Bool) (event : CalendarEvent)
deriving DecidableEq, Repr, BEq

/-- Response oracle for `POST /api/google/calendar/events`. -/
inductive FetchResp where
  | httpError
  | payload (success : Bool) (events : List CalendarEvent)
deriving DecidableEq, Repr, BEq

/-- Response oracle for `POST /api/google/oauth/refresh`. -/
inductive RefreshResp where
  | httpError
  | payload (success : Bool) (access_token : String)
deriving DecidableEq, Repr, BEq

/-- Response oracle for `POST /api/google/oauth/callback`. -/
inductive OAuthResp where
  | httpError
  | payload (success : Bool) (access_token : String)
      (refresh_token : Option String) (u : GoogleUser)
deriving DecidableEq, Repr, BEq

/-- Model of `loadEvents()`: read `calendar_events_v1`, defaulting to `[]` when
the key is absent or unparsable. -/
def loadEvents (kv : KV) : List CalendarEvent :=
  kv.calendar_events.getD []

/-- Model of `saveEvents(events)`: write the whole local list to
`calendar_events_v1`. -/
def saveEvents (evs : List CalendarEvent) (kv : KV) : KV :=
  { kv with calendar_events := some evs }

/-- The merged view `allEvents = [...events, ...googleEvents]`. -/
def allEvents (s : AppState) : List CalendarEvent :=
  s.events ++ s.googleEvents

/-- Model of `syncEventToGoogleCalendar(title, date, token)`: one create call;
on `{success: true}` the returned event is appended to the
`googleEvents` mirror; on a non-ok response or thrown error the catch
branch only logs (no refresh, no retry, no local save); on
`{success: false}` it only logs.  The second component is the list of
network calls issued. -/
def syncEventToGoogleCalendar (title date token : String) (resp : CreateResp)
    (s : AppState) : AppState × List NetCall :=
  match resp with
  | .httpError => (s, [.createCall])
  | .payload true ev => ({ s with googleEvents := s.googleEvents ++ [ev] }, [.createCall])
  | .payload false _ => (s, [.createCall])

/-- Model of `window.addCalendarEvent(dateISO, text)` (the chatbot-facing
global helper): duplicate check by exact `date`/`text` equality over
the merged view; when logged in, routes to
`syncEventToGoogleCalendar`; otherwise appends a fresh local event to
`loadEvents()` and persists.  `newId` stands for the generated
`String(Date.now()) + random` id. -/
def addCalendarEvent (newId : String) (resp : CreateResp) (dateISO text : String)
    (s : AppState) : AppState × List NetCall :=
  if (allEvents s).any (fun ev => ev.date == dateISO && ev.text == text) then
    (s, [])
  else if s.user.isSome && s.accessToken.isSome then
    syncEventToGoogleCalendar text dateISO (s.accessToken.getD "") resp s
  else
    let ev : CalendarEvent := { id := newId, date := dateISO, text := text, source := none }
    let next := loadEvents s.kv ++ [ev]
    ({ s with events := next, kv := saveEvents next s.kv }, [])

/-- Model of `addEvent(dateISO, text)` (the UI helper): no duplicate check;
when logged in, routes to `syncEventToGoogleCalendar`; otherwise
appends to the `events` state and persists. -/
def addEvent (newId : String) (resp : CreateResp) (dateISO text : String)
    (s : AppState) : AppState × List NetCall :=
  if s.user.isSome && s.accessToken.isSome then
    syncEventToGoogleCalendar text dateISO (s.accessToken.getD "") resp s
  else
    let ev : CalendarEvent := { id := newId, date := dateISO, text := text, source := none }
    let next := s.events ++ [ev]
    ({ s with events := next, kv := saveEvents next s.kv }, [])

/-- Whitespace predicate used by the spec-side normalization. -/
def isSpaceChar (c : Char) : Bool :=
  c = ' ' || c = '\t' || c = '\n' || c = '\r'

/-- The specification's normalization for duplicate detection
(`normalize = trim + case-fold`), stated from the spec's words for
comparison with the code's exact-equality check. -/
def specNormalize (t : String) : String :=
  String.mk
    (((t.data.dropWhile isSpaceChar).reverse.dropWhile isSpaceChar).reverse.map
      Char.toLower)

/-- Sample unauthenticated state holding one local event. -/
def sDup : AppState :=
  let ev : CalendarEvent := { id := "e1", date := "2025-05-01", text := "exam", source := none }
  { events := [ev], googleEvents := [], user := none, accessToken := none,
    refreshToken := none,
    kv := { calendar_events := some [ev], google_user := none,
            google_access_token := none, google_refresh_token := none,
            reminder_settings := none, shown_reminders := none } }

/-- Sample authenticated state (user and access token present). -/
def sAuth : AppState :=
  { events := [], googleEvents := [], user := some ⟨"a@b.c", "A", "p", some "tok"⟩,
    accessToken := some "tok", refreshToken := some "rt",
    kv := { calendar_events := some [], google_user := some ⟨"a@b.c", "A", "p", some "tok"⟩,
            google_access_token := some "tok", google_refresh_token := some "rt",
            reminder_settings := none, shown_reminders := none } }

/-- C1 counterexample: with an existing local event `("2025-05-01",
"exam")`, a second chatbot add with text `" EXAM"` — equal up to
trim + case-fold — is not rejected and mutates the event set, and the
UI helper `addEvent` appends even an exact duplicate.  So the claimed
normalized duplicate rejection (for both entry points) is false. -/
theorem add_duplicate_normalized_cx :
    specNormalize " EXAM" = specNormalize "exam" ∧
    (addCalendarEvent "e2" .httpError "2025-05-01" " EXAM" sDup).1.events.length = 2 ∧
    (addEvent "e3" .httpError "2025-05-01" "exam" sDup).1.events.length = 2 := by
  refine ⟨?_, ?_, ?_⟩ <;> decide

/-- C1 (amended): only the chatbot-facing helper checks duplicates,
and only by exact date and exact text equality over the merged view:
such a call is rejected (alert only) and performs no mutation at all —
the state, in particular the merged event set and localStorage, is
returned unchanged and no network call is made. -/
theorem addCalendarEvent_exact_duplicate_rejected
    (newId : String) (resp : CreateResp) (dateISO text : String) (s : AppState)
    (h : (allEvents s).any (fun ev => ev.date == dateISO && ev.text == text) = true) :
    addCalendarEvent newId resp dateISO text s = (s, []) := by
  unfold addCalendarEvent
  simp [h]

/-- Witness for the amended C1 theorem at a concrete duplicate add. -/
theorem addCalendarEvent_exact_duplicate_rejected_witness :
    addCalendarEvent "e2" .httpError "2025-05-01" "exam" sDup = (sDup, []) :=
  addCalendarEvent_exact_duplicate_rejected "e2" .httpError "2025-05-01" "exam" sDup
    (by decide)

/-- C2: write routing.  While authenticated (user and access token
present) neither entry point of add ever changes the local event set
or its persisted copy; while unauthenticated neither entry point
issues any network call, and the event is appended locally and
persisted (for the chatbot helper, provided the duplicate gate does
not reject the call, in which case C1's contract of no mutation
applies instead). -/
theorem add_write_routing (newId : String) (resp : CreateResp)
    (dateISO text : String) (s : AppState) :
    ((s.user.isSome && s.accessToken.isSome) = true →
      (addEvent newId resp dateISO text s).1.events = s.events ∧
      (addEvent newId resp dateISO text s).1.kv.calendar_events = s.kv.calendar_events ∧
      (addCalendarEvent newId resp dateISO text s).1.events = s.events ∧
      (addCalendarEvent newId resp dateISO text s).1.kv.calendar_events
        = s.kv.calendar_events) ∧
    ((s.user.isSome && s.accessToken.isSome) = false →
      (addEvent newId resp dateISO text s).2 = [] ∧
      (addCalendarEvent newId resp dateISO text s).2 = [] ∧
      (addEvent newId resp dateISO text s).1.events
        = s.events ++ [⟨newId, dateISO, text, none⟩] ∧
      (addEvent newId resp dateISO text s).1.kv.calendar_events
        = some (s.events ++ [⟨newId, dateISO, text, none⟩]) ∧
      ((allEvents s).any (fun ev => ev.date == dateISO && ev.text == text) = false →
        (addCalendarEvent newId resp dateISO text s).1.events
          = loadEvents s.kv ++ [⟨newId, dateISO, text, none⟩] ∧
        (addCalendarEvent newId resp dateISO text s).1.kv.calendar_events
          = some (loadEvents s.kv ++ [⟨newId, dateISO, text, none⟩]))) := by
  constructor
  · intro hAuth
    refine ⟨?_, ?_, ?_, ?_⟩
    · unfold addEvent
      rw [hAuth]
      cases resp with
      | httpError => rfl
      | payload ok ev => cases ok <;> rfl
    · unfold addEvent
      rw [hAuth]
      cases resp with
      | httpError => rfl
      | payload ok ev => cases ok <;> rfl
    · unfold addCalendarEvent
      by_cases hdup : (allEvents s).any (fun ev => ev.date == dateISO && ev.text == text) = true
      · simp [hdup]
      · simp only [Bool.not_eq_true] at hdup
        rw [hdup]
        simp only [Bool.false_eq_true, if_false, hAuth, if_true]
        cases resp with
        | httpError => rfl
        | payload ok ev => cases ok <;> rfl
    · unfold addCalendarEvent
      by_cases hdup : (allEvents s).any (fun ev => ev.date == dateISO && ev.text == text) = true
      · simp [hdup]
      · simp only [Bool.not_eq_true] at hdup
        rw [hdup]
        simp only [Bool.false_eq_true, if_false, hAuth, if_true]
        cases resp with
        | httpError => rfl
        | payload ok ev => cases ok <;> rfl
  · intro hNoAuth
    refine ⟨?_, ?_, ?_, ?_, ?_⟩
    · unfold addEvent
      rw [hNoAuth]
      rfl
    · unfold addCalendarEvent
      by_cases hdup : (allEvents s).any (fun ev => ev.date == dateISO && ev.text == text) = true
      · simp [hdup]
      · simp only [Bool.not_eq_true] at hdup
        rw [hdup]
        simp only [Bool.false_eq_true, if_false, hNoAuth]
    · unfold addEvent
      rw [hNoAuth]
      rfl
    · unfold addEvent
      rw [hNoAuth]
      rfl
    · intro hdup
      unfold addCalendarEvent
      rw [hdup, hNoAuth]
      exact ⟨rfl, rfl⟩

/-- Witness for the C2 theorem: an authenticated add leaves the local
set alone, and an unauthenticated add issues no network call and
appends locally. -/
theorem add_write_routing_witness :
    (addEvent "n1" .httpError "2025-05-02" "X" sAuth).1.events = sAuth.events ∧
    (addEvent "n1" .httpError "2025-05-02" "X" sDup).2 = [] := by
  constructor
  · exact ((add_write_routing "n1" .httpError "2025-05-02" "X" sAuth).1 (by decide)).1
  · exact ((add_write_routing "n1" .httpError "2025-05-02" "X" sDup).2 (by decide)).1

/-- C3 counterexample: an authenticated add whose create call fails
performs no token refresh and no retry — the complete network trace of
the add is a single create call — and leaves the state unchanged.
This refutes the claimed one-refresh-one-retry behavior (while
confirming that nothing is saved locally). -/
theorem add_remote_failure_no_refresh_cx :
    (addEvent "n1" .httpError "2025-05-02" "X" sAuth).2.count .refreshCall = 0 ∧
    (addEvent "n1" .httpError "2025-05-02" "X" sAuth).2.count .createCall = 1 ∧
    (addEvent "n1" .httpError "2025-05-02" "X" sAuth).1 = sAuth := by
  refine ⟨?_, ?_, ?_⟩ <;> decide

/-- C3 (amended): on a failed remote create (non-ok response, thrown
error, or a `{success: false}` body) the implementation attempts no
token refresh and no retry; the failure is only logged, no error value
is surfaced, and the event is written neither remotely nor locally —
the state is returned entirely unchanged, with exactly one create call
in the trace. -/
theorem syncEvent_failure_no_retry_no_local_write
    (title date token : String) (resp : CreateResp) (s : AppState)
    (h : resp = .httpError ∨ ∃ ev, resp = .payload false ev) :
    syncEventToGoogleCalendar title date token resp s = (s, [.createCall]) := by
  rcases h with h | ⟨ev, h⟩ <;> subst h <;> rfl

/-- Witness for the amended C3 theorem at a concrete failing create. -/
theorem syncEvent_failure_no_retry_witness :
    syncEventToGoogleCalendar "X" "2025-05-02" "tok" .httpError sAuth
      = (sAuth, [.createCall]) :=
  syncEvent_failure_no_retry_no_local_write "X" "2025-05-02" "tok" .httpError sAuth
    (Or.inl rfl)

/-- Model of `handleLogout()`: clears the user, both tokens (in memory and in
localStorage) and empties the `googleEvents` mirror; local events and
all other localStorage keys are untouched. -/
def handleLogout (s : AppState) : AppState :=
  { s with user := none, accessToken := none, refreshToken := none,
           googleEvents := [],
           kv := { s.kv with google_user := none, google_access_token := none,
                             google_refresh_token := none } }

/-- The `setAccessToken(tok); saveAccessToken(tok)` pair executed
inside `tryRefreshToken` on a successful refresh. -/
def setAndSaveAccessToken (tok : String) (s : AppState) : AppState :=
  { s with accessToken := some tok,
           kv := { s.kv with google_access_token := some tok } }

mutual

/-- Model of `fetchGoogleCalendarEvents(token)`: one fetch of the current
month's remote events; on `{success: true}` the mirror is replaced
wholesale by the fetched list; on `{success: false}` nothing happens;
on a non-ok response or thrown error the catch branch calls
`tryRefreshToken()` when a refresh token is stored, else gives up.
`fuel` bounds the fetch/refresh recursion depth and each network call
consumes the head of its oracle list. -/
def fetchGoogleCalendarEvents : Nat → List FetchResp → List RefreshResp →
    AppState → AppState
  | 0, _, _, s => s
  | _ + 1, [], _, s => s
  | fuel + 1, resp :: frRest, rr, s =>
    match resp with
    | .payload true evs => { s with googleEvents := evs }
    | .payload false _ => s
    | .httpError =>
      if s.refreshToken.isSome then tryRefreshToken fuel frRest rr s else s

/-- Model of `tryRefreshToken()`: returns immediately when no refresh token is
stored; otherwise one refresh call — on `{success: true}` it stores
the new access token and refetches the events with it, on
`{success: false}` nothing happens, and on a non-ok response or thrown
error the catch branch calls `handleLogout()`. -/
def tryRefreshToken : Nat → List FetchResp → List RefreshResp →
    AppState → AppState
  | 0, _, _, s => s
  | fuel + 1, fr, rr, s =>
    if s.refreshToken.isNone then s
    else
      match rr with
      | [] => handleLogout s
      | .httpError :: _ => handleLogout s
      | .payload true tok :: rrRest =>
        fetchGoogleCalendarEvents fuel fr rrRest (setAndSaveAccessToken tok s)
      | .payload false _ :: _ => s

end

/-- Model of `handleGoogleSuccess(codeResponse)` after the backend code
exchange: on any error the state is unchanged (alert only); on success
the user (with embedded access token), the access token and — when
present — the refresh token are stored in memory and localStorage, and
the calendar events are fetched. -/
def handleGoogleSuccess (resp : OAuthResp) (fuel : Nat) (fr : List FetchResp)
    (rr : List RefreshResp) (s : AppState) : AppState :=
  match resp with
  | .httpError => s
  | .payload false _ _ _ => s
  | .payload true tok rtok u =>
    let userData : GoogleUser := { u with accessToken := some tok }
    let s1 := { s with user := some userData,
                       kv := { s.kv with google_user := some userData } }
    let s2 := setAndSaveAccessToken tok s1
    let s3 :=
      match rtok with
      | some rt => { s2 with refreshToken := some rt,
                             kv := { s2.kv with google_refresh_token := some rt } }
      | none => s2
    fetchGoogleCalendarEvents fuel fr rr s3

/-- C4: a refresh with no stored refresh token returns immediately
(the `NoRefreshToken` branch) leaving the whole state — identity,
tokens, persisted session — unchanged; a refresh whose backend call is
rejected (non-ok response, the `RefreshFailed` branch) runs
`handleLogout`, clearing the in-memory and persisted session. -/
theorem tryRefreshToken_no_token_and_rejected (fuel : Nat)
    (fr : List FetchResp) (rr : List RefreshResp) (s : AppState) :
    (s.refreshToken = none → tryRefreshToken (fuel + 1) fr rr s = s) ∧
    (∀ t rest, s.refreshToken = some t → rr = .httpError :: rest →
      tryRefreshToken (fuel + 1) fr rr s = handleLogout s ∧
      (handleLogout s).user = none ∧
      (handleLogout s).accessToken = none ∧
      (handleLogout s).refreshToken = none ∧
      (handleLogout s).kv.google_user = none ∧
      (handleLogout s).kv.google_access_token = none ∧
      (handleLogout s).kv.google_refresh_token = none) := by
  constructor
  · intro h
    unfold tryRefreshToken
    simp [h, Option.isNone]
  · intro t rest ht hrr
    subst hrr
    refine ⟨?_, rfl, rfl, rfl, rfl, rfl, rfl⟩
    unfold tryRefreshToken
    simp [ht, Option.isNone]

/-- Sample state with no refresh token stored. -/
def sNoTok : AppState :=
  { sDup with refreshToken := none }

/-- Witness for the C4 theorem: both branches at concrete states. -/
theorem tryRefreshToken_no_token_and_rejected_witness :
    tryRefreshToken 1 [] [] sNoTok = sNoTok ∧
    tryRefreshToken 1 [] [.httpError] sAuth = handleLogout sAuth := by
  constructor
  · exact (tryRefreshToken_no_token_and_rejected 0 [] [] sNoTok).1 rfl
  · exact ((tryRefreshToken_no_token_and_rejected 0 [] [.httpError] sAuth).2
      "rt" [] rfl rfl).1

/-- Sample authenticated state with a nonempty remote mirror. -/
def sMirror : AppState :=
  { sAuth with googleEvents :=
      [{ id := "google-1", date := "2025-05-03", text := "G", source := some "google" }] }

/-- C5 counterexample: at a state with a nonempty mirror and a stored
refresh token, a failed fetch followed by a failed refresh does not
leave the previous mirror intact — `handleLogout` empties it (and
clears the whole session); no `FetchFailed`-style error is surfaced. -/
theorem fetch_fail_refresh_fail_clears_mirror_cx :
    sMirror.googleEvents ≠ [] ∧
    (fetchGoogleCalendarEvents 2 [.httpError] [.httpError] sMirror).googleEvents = [] ∧
    (fetchGoogleCalendarEvents 2 [.httpError] [.httpError] sMirror).user = none := by
  refine ⟨?_, ?_, ?_⟩ <;> decide

/-- C5 (amended): a successful fetch replaces the entire in-memory
mirror with exactly the fetched events, whatever the previous mirror
was (no merging); a failed fetch with a stored refresh token whose
refresh call also fails does not preserve the mirror — it runs
`handleLogout`, emptying the mirror and clearing the session, with no
error surfaced.  Local events are untouched in both cases. -/
theorem fetch_replaces_mirror_and_failure_logs_out (fuel : Nat)
    (evs : List CalendarEvent) (frRest : List FetchResp)
    (rr rrRest : List RefreshResp) (s : AppState) :
    (fetchGoogleCalendarEvents (fuel + 1) (.payload true evs :: frRest) rr s
        = { s with googleEvents := evs }) ∧
    (∀ t, s.refreshToken = some t →
      fetchGoogleCalendarEvents (fuel + 2) (.httpError :: frRest)
          (.httpError :: rrRest) s = handleLogout s ∧
      (handleLogout s).googleEvents = [] ∧
      (handleLogout s).events = s.events) := by
  constructor
  · rfl
  · intro t ht
    refine ⟨?_, rfl, rfl⟩
    show (if s.refreshToken.isSome then
            tryRefreshToken (fuel + 1) frRest (.httpError :: rrRest) s
          else s) = handleLogout s
    rw [ht]
    show tryRefreshToken (fuel + 1) frRest (.httpError :: rrRest) s = handleLogout s
    unfold tryRefreshToken
    simp [ht, Option.isNone]

/-- Witness for the amended C5 theorem at concrete inputs. -/
theorem fetch_replaces_mirror_witness :
    fetchGoogleCalendarEvents 1
        [.payload true [{ id := "google-2", date := "2025-05-04", text := "H",
                          source := some "google" }]] [] sMirror
      = { sMirror with googleEvents :=
            [{ id := "google-2", date := "2025-05-04", text := "H",
               source := some "google" }] } ∧
    fetchGoogleCalendarEvents 2 [.httpError] [.httpError] sMirror
      = handleLogout sMirror := by
  constructor
  · exact (fetch_replaces_mirror_and_failure_logs_out 0
      [{ id := "google-2", date := "2025-05-04", text := "H", source := some "google" }]
      [] [] [] sMirror).1
  · exact ((fetch_replaces_mirror_and_failure_logs_out 0 [] [] [] [] sMirror).2
      "rt" rfl).1

/-- C9: `handleLogout` clears exactly the session (user, tokens, their
persisted copies) and the in-memory mirror: the local event set, its
persisted copy, the reminder settings and the reminder ledger are all
unchanged, so the merged view afterwards is exactly the local set; and
a subsequent successful re-login at a state with zero local events
yields a merged view equal to the newly fetched remote events. -/
theorem logout_frame_and_relogin (s : AppState) :
    ((handleLogout s).events = s.events ∧
     (handleLogout s).kv.calendar_events = s.kv.calendar_events ∧
     (handleLogout s).kv.reminder_settings = s.kv.reminder_settings ∧
     (handleLogout s).kv.shown_reminders = s.kv.shown_reminders ∧
     (handleLogout s).googleEvents = [] ∧
     (handleLogout s).user = none ∧
     (handleLogout s).accessToken = none ∧
     (handleLogout s).refreshToken = none ∧
     (handleLogout s).kv.google_user = none ∧
     (handleLogout s).kv.google_access_token = none ∧
     (handleLogout s).kv.google_refresh_token = none ∧
     allEvents (handleLogout s) = s.events) ∧
    (∀ (tok : String) (rtok : Option String) (u : GoogleUser)
       (evs : List CalendarEvent) (fuel : Nat) (frRest : List FetchResp)
       (rr : List RefreshResp),
      s.events = [] →
      allEvents (handleGoogleSuccess (.payload true tok rtok u) (fuel + 1)
        (.payload true evs :: frRest) rr (handleLogout s)) = evs) := by
  constructor
  · refine ⟨rfl, rfl, rfl, rfl, rfl, rfl, rfl, rfl, rfl, rfl, rfl, ?_⟩
    show s.events ++ [] = s.events
    simp
  · intro tok rtok u evs fuel frRest rr hloc
    cases rtok <;>
      simp [handleGoogleSuccess, fetchGoogleCalendarEvents, allEvents,
            setAndSaveAccessToken, handleLogout, hloc]

/-- Witness for the C9 theorem: frame facts plus a concrete
logout-then-relogin run. -/
theorem logout_frame_and_relogin_witness :
    (handleLogout sAuth).events = sAuth.events ∧
    allEvents (handleGoogleSuccess
        (.payload true "tok2" (some "rt2") ⟨"a@b.c", "A", "p", none⟩) 1
        [.payload true [{ id := "google-9", date := "2025-05-05", text := "R",
                          source := some "google" }]] [] (handleLogout sAuth))
      = [{ id := "google-9", date := "2025-05-05", text := "R",
           source := some "google" }] := by
  constructor
  · exact (logout_frame_and_relogin sAuth).1.1
  · exact (logout_frame_and_relogin sAuth).2 "tok2" (some "rt2")
      ⟨"a@b.c", "A", "p", none⟩
      [{ id := "google-9", date := "2025-05-05", text := "R", source := some "google" }]
      0 [] [] rfl

/-- Case-folding used by the `/klausur|prüfung|exam|test/i` regex:
ASCII lowering plus the German umlauts relevant to the keyword set. -/
def toLowerDe (c : Char) : Char :=
  if c = 'Ä' then 'ä'
  else if c = 'Ö' then 'ö'
  else if c = 'Ü' then 'ü'
  else c.toLower

/-- Boolean substring check on character lists. -/
def containsSub (needle : List Char) : List Char → Bool
  | [] => needle.isEmpty
  | c :: t => needle.isPrefixOf (c :: t) || containsSub needle t

/-- The exam classifier `/klausur|prüfung|exam|test/i.test(ev.text)`:
case-insensitive keyword substring match. -/
def isExamText (s : String) : Bool :=
  let l := s.data.map toLowerDe
  containsSub "klausur".data l || containsSub "prüfung".data l ||
    containsSub "exam".data l || containsSub "test".data l

/-- JavaScript `v || d` on an optional numeric field: the default is
used when the field is absent or `0` (falsy). -/
def jsOrDefault (v : Option Int) (d : Int) : Int :=
  match v with
  | none => d
  | some x => if x = 0 then d else x

/-- The reminder key: `` `${ev.date}_${ev.text}_${diffDays}` ``. -/
def reminderId (ev : CalendarEvent) (diffDays : Int) : String :=
  ev.date ++ "_" ++ ev.text ++ "_" ++ toString diffDays

/-- The notification body chosen by `diffDays`. -/
def reminderMessage (ev : CalendarEvent) (diffDays : Int) : String :=
  if diffDays = 0 then "Heute: " ++ ev.text
  else if diffDays = 1 then "Morgen: " ++ ev.text
  else "In " ++ toString diffDays ++ " Tagen: " ++ ev.text

/-- The body of the `allEvents.forEach` loop in `checkReminders`,
acting on an accumulator of (notifications dispatched so far, current
`shownReminders` list): skip past events (`diffDays < 0`), classify,
check the due condition, skip keys already in the ledger, otherwise
dispatch and append the key.  `dayOf` maps an event's ISO date string
to its local calendar day number and `today` is the truncated current
day, so `dayOf ev.date - today` is the code's `diffDays`. -/
def scanStep (taskDays examDays : Int) (dayOf : String → Int) (today : Int)
    (acc : List String × List String) (ev : CalendarEvent) :
    List String × List String :=
  if dayOf ev.date - today < 0 then acc
  else if dayOf ev.date - today
        = (if isExamText ev.text then examDays else taskDays) ∨
      dayOf ev.date - today = 0 then
    if acc.2.contains (reminderId ev (dayOf ev.date - today)) then acc
    else (acc.1 ++ [reminderMessage ev (dayOf ev.date - today)],
          acc.2 ++ [reminderId ev (dayOf ev.date - today)])
  else acc

/-- Model of `checkReminders()`: returns unchanged when notification permission
is not granted or when no `reminder_settings` value is stored;
otherwise reads the lead days with JS `||` defaults `1` and `7`, folds
the loop body over the merged event list starting from the stored
`shown_reminders` ledger (default `[]`), persists the final ledger and
dispatches the collected notifications (second component). -/
def checkReminders (notifGranted : Bool) (dayOf : String → Int) (today : Int)
    (s : AppState) : AppState × List String :=
  if notifGranted then
    match s.kv.reminder_settings with
    | none => (s, [])
    | some settings =>
      let taskDays := jsOrDefault settings.reminder_days_tasks 1
      let examDays := jsOrDefault settings.reminder_days_exams 7
      let result := (allEvents s).foldl
        (scanStep taskDays examDays dayOf today)
        ([], s.kv.shown_reminders.getD [])
      ({ s with kv := { s.kv with shown_reminders := some result.2 } }, result.1)
  else (s, [])

/-- C10: with notification permission not granted, `checkReminders` is
a complete no-op: it dispatches nothing and returns the state — local
events, mirror, ledger, settings — exactly unchanged. -/
theorem scan_no_permission_noop (dayOf : String → Int) (today : Int)
    (s : AppState) :
    checkReminders false dayOf today s = (s, []) :=
  rfl

/-- Unauthenticated state with a single non-exam event one day ahead
(under `dayOf := fun _ => 1`, `today := 0`) and no stored reminder
settings. -/
def sScan : AppState :=
  let ev : CalendarEvent :=
    { id := "e1", date := "2025-05-02", text := "Hausaufgabe", source := none }
  { events := [ev], googleEvents := [], user := none, accessToken := none,
    refreshToken := none,
    kv := { calendar_events := some [ev], google_user := none,
            google_access_token := none, google_refresh_token := none,
            reminder_settings := none, shown_reminders := none } }

/-- The same state with the spec's default settings `{1, 7}` stored. -/
def sScanDefaults : AppState :=
  { sScan with kv := { sScan.kv with
      reminder_settings := some { reminder_days_tasks := some 1,
                                  reminder_days_exams := some 7 } } }

/-- C8 counterexample: with no `reminder_settings` stored, a scan over
an event due tomorrow dispatches nothing and changes nothing — it does
not proceed with the defaults — whereas the identical state with the
defaults `{1, 7}` stored dispatches the reminder. -/
theorem scan_missing_settings_noop_cx :
    sScan.kv.reminder_settings = none ∧
    checkReminders true (fun _ => 1) 0 sScan = (sScan, []) ∧
    (checkReminders true (fun _ => 1) 0 sScanDefaults).2
      = ["Morgen: Hausaufgabe"] := by
  refine ⟨rfl, rfl, ?_⟩
  decide

/-- Membership reading of the `shownReminders.includes` check. -/
theorem contains_iff_mem_str (l : List String) (a : String) :
    l.contains a = true ↔ a ∈ l := by
  simp [List.contains]

/-- A fold whose step fixes the initial accumulator on every list
element returns the accumulator. -/
theorem foldl_fixed {α β : Type} (f : β → α → β) (b : β) (l : List α)
    (h : ∀ a ∈ l, f b a = b) : l.foldl f b = b := by
  induction l with
  | nil => rfl
  | cons x t ih =>
    have hx : f b x = b := h x (List.mem_cons_self x t)
    rw [List.foldl_cons, hx]
    exact ih fun a ha => h a (List.mem_cons_of_mem x ha)

/-- The loop body never removes a key from the ledger. -/
theorem scanStep_shown_mono (tD eD : Int) (dayOf : String → Int) (today : Int)
    (acc : List String × List String) (ev : CalendarEvent) (k : String)
    (hk : k ∈ acc.2) : k ∈ (scanStep tD eD dayOf today acc ev).2 := by
  unfold scanStep
  by_cases h1 : dayOf ev.date - today < 0
  · rw [if_pos h1]; exact hk
  · rw [if_neg h1]
    by_cases h2 : dayOf ev.date - today
        = (if isExamText ev.text then eD else tD) ∨ dayOf ev.date - today = 0
    · rw [if_pos h2]
      by_cases h3 : acc.2.contains (reminderId ev (dayOf ev.date - today)) = true
      · rw [if_pos h3]; exact hk
      · rw [if_neg h3]; exact List.mem_append_left _ hk
    · rw [if_neg h2]; exact hk

/-- The whole scan loop never removes a key from the ledger. -/
theorem scanFold_shown_mono (tD eD : Int) (dayOf : String → Int) (today : Int)
    (l : List CalendarEvent) (acc : List String × List String) (k : String)
    (hk : k ∈ acc.2) :
    k ∈ (l.foldl (scanStep tD eD dayOf today) acc).2 := by
  induction l generalizing acc with
  | nil => exact hk
  | cons x t ih =>
    exact ih _ (scanStep_shown_mono tD eD dayOf today acc x k hk)

/-- After the loop body processed a due event, its key is in the
ledger. -/
theorem scanStep_due_mem (tD eD : Int) (dayOf : String → Int) (today : Int)
    (acc : List String × List String) (ev : CalendarEvent)
    (h1 : ¬ dayOf ev.date - today < 0)
    (h2 : dayOf ev.date - today = (if isExamText ev.text then eD else tD) ∨
      dayOf ev.date - today = 0) :
    reminderId ev (dayOf ev.date - today) ∈ (scanStep tD eD dayOf today acc ev).2 := by
  unfold scanStep
  rw [if_neg h1, if_pos h2]
  by_cases h3 : acc.2.contains (reminderId ev (dayOf ev.date - today)) = true
  · rw [if_pos h3]; exact (contains_iff_mem_str _ _).1 h3
  · rw [if_neg h3]; exact List.mem_append_right _ (List.mem_cons_self _ _)

/-- After the scan loop ran over a list containing a due event, that
event's key is in the final ledger. -/
theorem scanFold_due_mem (tD eD : Int) (dayOf : String → Int) (today : Int)
    (l : List CalendarEvent) (acc : List String × List String)
    (ev : CalendarEvent) (hev : ev ∈ l)
    (h1 : ¬ dayOf ev.date - today < 0)
    (h2 : dayOf ev.date - today = (if isExamText ev.text then eD else tD) ∨
      dayOf ev.date - today = 0) :
    reminderId ev (dayOf ev.date - today)
      ∈ (l.foldl (scanStep tD eD dayOf today) acc).2 := by
  induction l generalizing acc with
  | nil => cases hev
  | cons x t ih =>
    rw [List.foldl_cons]
    rcases List.mem_cons.1 hev with hx | ht
    · subst hx
      exact scanFold_shown_mono tD eD dayOf today t _ _
        (scanStep_due_mem tD eD dayOf today acc ev h1 h2)
    · exact ih _ ht

/-- The loop body fixes an accumulator whose ledger already covers the
event (or the event is not due). -/
theorem scanStep_eq_of_covered (tD eD : Int) (dayOf : String → Int) (today : Int)
    (acc : List String × List String) (ev : CalendarEvent)
    (h : ¬ dayOf ev.date - today < 0 →
      (dayOf ev.date - today = (if isExamText ev.text then eD else tD) ∨
        dayOf ev.date - today = 0) →
      reminderId ev (dayOf ev.date - today) ∈ acc.2) :
    scanStep tD eD dayOf today acc ev = acc := by
  unfold scanStep
  by_cases h1 : dayOf ev.date - today < 0
  · rw [if_pos h1]
  · rw [if_neg h1]
    by_cases h2 : dayOf ev.date - today
        = (if isExamText ev.text then eD else tD) ∨ dayOf ev.date - today = 0
    · rw [if_pos h2, if_pos ((contains_iff_mem_str _ _).2 (h h1 h2))]
    · rw [if_neg h2]

/-- C6: the scan skips past events — for `dayDelta < 0` the loop body
leaves the accumulator (and hence notifications and ledger) unchanged;
whenever the loop body does dispatch, the event satisfies the due
condition `dayDelta = leadDays ∨ dayDelta = 0` with the lead days
selected by the exam classifier; and a scan over a state whose events
all lie strictly in the past dispatches no notification at all. -/
theorem scan_skips_past_and_due_condition (taskDays examDays : Int)
    (dayOf : String → Int) (today : Int) (acc : List String × List String)
    (ev : CalendarEvent) (g : Bool) (s : AppState) :
    (dayOf ev.date - today < 0 →
      scanStep taskDays examDays dayOf today acc ev = acc) ∧
    (scanStep taskDays examDays dayOf today acc ev ≠ acc →
      (dayOf ev.date - today
          = (if isExamText ev.text then examDays else taskDays) ∨
        dayOf ev.date - today = 0)) ∧
    ((∀ e ∈ allEvents s, dayOf e.date - today < 0) →
      (checkReminders g dayOf today s).2 = []) := by
  refine ⟨?_, ?_, ?_⟩
  · intro hneg
    unfold scanStep
    rw [if_pos hneg]
  · intro hne
    by_contra hdue
    apply hne
    unfold scanStep
    by_cases h1 : dayOf ev.date - today < 0
    · rw [if_pos h1]
    · rw [if_neg h1, if_neg hdue]
  · intro hall
    cases g with
    | false => rfl
    | true =>
      cases hst : s.kv.reminder_settings with
      | none => simp [checkReminders, hst]
      | some st =>
        have hfix : (allEvents s).foldl
            (scanStep (jsOrDefault st.reminder_days_tasks 1)
              (jsOrDefault st.reminder_days_exams 7) dayOf today)
            ([], s.kv.shown_reminders.getD [])
            = ([], s.kv.shown_reminders.getD []) := by
          apply foldl_fixed
          intro e he
          unfold scanStep
          rw [if_pos (hall e he)]
        simp [checkReminders, hst, hfix]

/-- Witness for the C6 theorem: a past event is skipped, a dispatching
step satisfies the due condition, and an all-past state dispatches
nothing. -/
theorem scan_skips_past_witness :
    scanStep 1 7 (fun _ => -3) 0 ([], [])
        { id := "e1", date := "2025-05-02", text := "Hausaufgabe", source := none }
      = ([], []) ∧
    (checkReminders true (fun _ => -3) 0 sScanDefaults).2 = [] := by
  constructor
  · exact (scan_skips_past_and_due_condition 1 7 (fun _ => -3) 0 ([], [])
      { id := "e1", date := "2025-05-02", text := "Hausaufgabe", source := none }
      true sScanDefaults).1 (by decide)
  · exact (scan_skips_past_and_due_condition 1 7 (fun _ => -3) 0 ([], [])
      { id := "e1", date := "2025-05-02", text := "Hausaufgabe", source := none }
      true sScanDefaults).2.2 (fun e _ => by decide)

/-- Rerunning the scan loop from the ledger it just produced adds no
notification: every due event's key is already recorded. -/
theorem scanFold_rerun_empty (tD eD : Int) (dayOf : String → Int) (today : Int)
    (l : List CalendarEvent) (sh0 : List String) :
    (l.foldl (scanStep tD eD dayOf today)
      ([], (l.foldl (scanStep tD eD dayOf today) ([], sh0)).2)).1 = [] := by
  rw [foldl_fixed]
  intro e he
  apply scanStep_eq_of_covered
  intro h1 h2
  exact scanFold_due_mem tD eD dayOf today l _ e he h1 h2

/-- C7: per-key idempotency of the scan.  For a state holding a single
due event whose key is not yet in the ledger, the scan dispatches
exactly one notification and records the key in the persisted ledger;
and — entirely generally — a second scan run on the state produced by
a first scan with the same `now` dispatches zero notifications. -/
theorem scan_dispatch_once_and_idempotent (dayOf : String → Int) (today : Int)
    (s : AppState) :
    (∀ ev st, s.events = [ev] → s.googleEvents = [] →
      s.kv.reminder_settings = some st →
      ¬ dayOf ev.date - today < 0 →
      (dayOf ev.date - today
          = (if isExamText ev.text then jsOrDefault st.reminder_days_exams 7
             else jsOrDefault st.reminder_days_tasks 1) ∨
        dayOf ev.date - today = 0) →
      reminderId ev (dayOf ev.date - today) ∉ s.kv.shown_reminders.getD [] →
      (checkReminders true dayOf today s).2
        = [reminderMessage ev (dayOf ev.date - today)] ∧
      reminderId ev (dayOf ev.date - today)
        ∈ (checkReminders true dayOf today s).1.kv.shown_reminders.getD []) ∧
    (∀ g, (checkReminders g dayOf today (checkReminders g dayOf today s).1).2
      = []) := by
  constructor
  · intro ev st hev hge hst h1 h2 h3
    have hAll : allEvents s = [ev] := by simp [allEvents, hev, hge]
    have hc : ¬ ((s.kv.shown_reminders.getD []).contains
        (reminderId ev (dayOf ev.date - today)) = true) :=
      fun hcc => h3 ((contains_iff_mem_str _ _).1 hcc)
    have hstep : scanStep (jsOrDefault st.reminder_days_tasks 1)
        (jsOrDefault st.reminder_days_exams 7) dayOf today
        ([], s.kv.shown_reminders.getD []) ev
        = ([reminderMessage ev (dayOf ev.date - today)],
           s.kv.shown_reminders.getD []
             ++ [reminderId ev (dayOf ev.date - today)]) := by
      unfold scanStep
      rw [if_neg h1, if_pos h2, if_neg hc]
      simp
    constructor
    · simp [checkReminders, hst, hAll, hstep]
    · simp [checkReminders, hst, hAll, hstep]
  · intro g
    cases g with
    | false => rfl
    | true =>
      cases hst : s.kv.reminder_settings with
      | none => simp [checkReminders, hst]
      | some st =>
        have hre := scanFold_rerun_empty (jsOrDefault st.reminder_days_tasks 1)
          (jsOrDefault st.reminder_days_exams 7) dayOf today (allEvents s)
          (s.kv.shown_reminders.getD [])
        simp only [checkReminders, hst, if_true, allEvents] at hre ⊢
        simpa using hre

/-- Witness for the C7 theorem: one notification on the first scan,
none on the second. -/
theorem scan_dispatch_once_witness :
    (checkReminders true (fun _ => 1) 0 sScanDefaults).2
      = ["Morgen: Hausaufgabe"] ∧
    (checkReminders true (fun _ => 1) 0
      (checkReminders true (fun _ => 1) 0 sScanDefaults).1).2 = [] := by
  constructor
  · exact ((scan_dispatch_once_and_idempotent (fun _ => 1) 0 sScanDefaults).1
      { id := "e1", date := "2025-05-02", text := "Hausaufgabe", source := none }
      { reminder_days_tasks := some 1, reminder_days_exams := some 7 }
      rfl rfl rfl (by decide) (by decide) (by decide)).1
  · exact (scan_dispatch_once_and_idempotent (fun _ => 1) 0 sScanDefaults).2 true

/-- C8 (amended): when no `reminder_settings` value is stored the scan
aborts — state and notifications unchanged — instead of proceeding
with defaults; when a value is stored, the lead days used are the
stored values filtered through JS `||`, i.e. a stored `0` (or a
missing field) falls back to the defaults `1` (tasks) / `7` (exams),
with events classified as exams by the case-insensitive keyword match:
for a fresh single-event state, a notification is dispatched exactly
when `dayDelta` is nonnegative and equals the selected lead days or
zero. -/
theorem scan_settings_defaults_behavior (g : Bool) (dayOf : String → Int)
    (today : Int) (s : AppState) :
    (s.kv.reminder_settings = none → checkReminders g dayOf today s = (s, [])) ∧
    (∀ st ev, s.kv.reminder_settings = some st → s.events = [ev] →
      s.googleEvents = [] → s.kv.shown_reminders = some [] →
      ((checkReminders true dayOf today s).2 ≠ [] ↔
        (0 ≤ dayOf ev.date - today ∧
          (dayOf ev.date - today
              = (if isExamText ev.text then jsOrDefault st.reminder_days_exams 7
                 else jsOrDefault st.reminder_days_tasks 1) ∨
           dayOf ev.date - today = 0)))) := by
  constructor
  · intro h
    cases g with
    | false => rfl
    | true => simp [checkReminders, h]
  · intro st ev hst hev hge hsh
    have hAll : allEvents s = [ev] := by simp [allEvents, hev, hge]
    by_cases h1 : dayOf ev.date - today < 0
    · have hstep : scanStep (jsOrDefault st.reminder_days_tasks 1)
          (jsOrDefault st.reminder_days_exams 7) dayOf today ([], []) ev
          = ([], []) := by
        unfold scanStep
        rw [if_pos h1]
      simp only [checkReminders, hst, hsh, hAll, if_true]
      simp [hstep]
      intro habs
      omega
    · by_cases h2 : dayOf ev.date - today
          = (if isExamText ev.text then jsOrDefault st.reminder_days_exams 7
             else jsOrDefault st.reminder_days_tasks 1) ∨
          dayOf ev.date - today = 0
      · have hstep : scanStep (jsOrDefault st.reminder_days_tasks 1)
            (jsOrDefault st.reminder_days_exams 7) dayOf today ([], []) ev
            = ([reminderMessage ev (dayOf ev.date - today)],
               [reminderId ev (dayOf ev.date - today)]) := by
          unfold scanStep
          rw [if_neg h1, if_pos h2, if_neg (by simp)]
          simp
        simp only [checkReminders, hst, hsh, hAll, if_true]
        simp [hstep]
        exact ⟨by omega, h2⟩
      · have hstep : scanStep (jsOrDefault st.reminder_days_tasks 1)
            (jsOrDefault st.reminder_days_exams 7) dayOf today ([], []) ev
            = ([], []) := by
          unfold scanStep
          rw [if_neg h1, if_neg h2]
        simp only [checkReminders, hst, hsh, hAll, if_true]
        simp [hstep]
        intro _
        exact ⟨fun habs => h2 (Or.inl habs), fun habs => h2 (Or.inr habs)⟩

/-- Fresh variant of the defaults state with an empty stored ledger. -/
def sScanFresh : AppState :=
  { sScanDefaults with kv := { sScanDefaults.kv with shown_reminders := some [] } }

/-- Witness for the amended C8 theorem: the missing-settings branch at
a concrete state, and the stored-settings characterization at a
concrete fresh state. -/
theorem scan_settings_defaults_behavior_witness :
    checkReminders true (fun _ => 1) 0 sScan = (sScan, []) ∧
    ((checkReminders true (fun _ => 1) 0 sScanFresh).2 ≠ [] ↔
      (0 ≤ (fun _ : String => (1 : Int)) "2025-05-02" - 0 ∧
        ((fun _ : String => (1 : Int)) "2025-05-02" - 0
            = (if isExamText "Hausaufgabe" then jsOrDefault (some 7) 7
               else jsOrDefault (some 1) 1) ∨
         (fun _ : String => (1 : Int)) "2025-05-02" - 0 = 0))) := by
  constructor
  · exact (scan_settings_defaults_behavior true (fun _ => 1) 0 sScan).1 rfl
  · exact (scan_settings_defaults_behavior true (fun _ => 1) 0 sScanFresh).2
      { reminder_days_tasks := some 1, reminder_days_exams := some 7 }
      { id := "e1", date := "2025-05-02", text := "Hausaufgabe", source := none }
      rfl rfl rfl rfl

end MoodleChat
